import Mathlib

/-!
Verification of the External Job Runner of `udiscovery` — a shallow
embedding of the `/api/run-demo` request handler of
`src/frontend/server.js` (lines 82–269).

Text is modelled as `String` (converted to `List Char` internally so
every definition is executable and kernel-reducible).  `JSON.parse` is
modelled by `jsonParse`, a fuel-based recursive-descent parser for the
JSON grammar that returns `Option Json` in place of the thrown
exception.  Numbers are kept as their lexical tokens, which is all the
handler ever inspects.
-/

/-- JSON values as produced by the modelled `JSON.parse`.  Object fields
are kept in parse order; a number keeps its source token. -/
inductive Json where
  | null : Json
  | bool (b : Bool) : Json
  | num (tok : String) : Json
  | str (s : String) : Json
  | arr (items : List Json) : Json
  | obj (fields : List (String × Json)) : Json

/-- Whitespace accepted between JSON tokens (the JSON grammar's `ws`). -/
def isJsonWs (c : Char) : Bool :=
  c = ' ' || c = '\t' || c = '\n' || c = '\r'

/-- Whitespace removed by JavaScript `String.prototype.trim` (the ASCII
part; exotic Unicode space characters are not modelled). -/
def isJsWs (c : Char) : Bool :=
  c = ' ' || c = '\t' || c = '\n' || c = '\r' || c = '\x0B' || c = '\x0C'

/-- Drop leading JSON whitespace. -/
def skipWs (cs : List Char) : List Char := cs.dropWhile isJsonWs

/-- Model of JavaScript `s.trim()`. -/
def jsTrim (s : String) : String :=
  String.mk (((s.data.dropWhile isJsWs).reverse.dropWhile isJsWs).reverse)

/-- Model of JavaScript `s.startsWith(c)` for a one-character argument. -/
def strStarts (s : String) (c : Char) : Bool :=
  match s.data with
  | [] => false
  | a :: _ => a = c

/-- Model of JavaScript `s.substring(0, n)` (by code points). -/
def strTake (n : Nat) (s : String) : String := String.mk (s.data.take n)

/-- Value of a hexadecimal digit, for `\u` escapes. -/
def hexVal (c : Char) : Option Nat :=
  if '0' ≤ c ∧ c ≤ '9' then some (c.toNat - '0'.toNat)
  else if 'a' ≤ c ∧ c ≤ 'f' then some (c.toNat - 'a'.toNat + 10)
  else if 'A' ≤ c ∧ c ≤ 'F' then some (c.toNat - 'A'.toNat + 10)
  else none

/-- Parse the body of a JSON string literal (the opening quote already
consumed), returning the decoded string and the remaining input. -/
def parseStrTok : List Char → List Char → Option (String × List Char)
  | _, [] => none
  | acc, c :: rest =>
    if c = '"' then some (String.mk acc.reverse, rest)
    else if c = '\\' then
      match rest with
      | [] => none
      | e :: rest2 =>
        if e = '"' then parseStrTok ('"' :: acc) rest2
        else if e = '\\' then parseStrTok ('\\' :: acc) rest2
        else if e = '/' then parseStrTok ('/' :: acc) rest2
        else if e = 'b' then parseStrTok ('\x08' :: acc) rest2
        else if e = 'f' then parseStrTok ('\x0C' :: acc) rest2
        else if e = 'n' then parseStrTok ('\n' :: acc) rest2
        else if e = 'r' then parseStrTok ('\x0D' :: acc) rest2
        else if e = 't' then parseStrTok ('\t' :: acc) rest2
        else if e = 'u' then
          match rest2 with
          | h1 :: h2 :: h3 :: h4 :: rest3 =>
            match hexVal h1, hexVal h2, hexVal h3, hexVal h4 with
            | some a, some b, some c2, some d =>
              parseStrTok (Char.ofNat (((a * 16 + b) * 16 + c2) * 16 + d) :: acc) rest3
            | _, _, _, _ => none
          | _ => none
        else none
    else if c.toNat < 32 then none
    else parseStrTok (c :: acc) rest

/-- Longest digit run at the head of the input, and the rest. -/
def parseDigits (cs : List Char) : List Char × List Char :=
  (cs.takeWhile Char.isDigit, cs.dropWhile Char.isDigit)

/-- Integer part of a JSON number: `0`, or a nonzero digit then digits. -/
def parseIntPart : List Char → Option (List Char × List Char)
  | [] => none
  | c :: r =>
    if c = '0' then some (['0'], r)
    else if c.isDigit then
      match parseDigits r with
      | (ds, r2) => some (c :: ds, r2)
    else none

/-- Optional fraction part of a JSON number. -/
def parseFracPart : List Char → Option (List Char × List Char)
  | '.' :: r =>
    match parseDigits r with
    | (ds, r2) => if ds.isEmpty then none else some ('.' :: ds, r2)
  | cs => some ([], cs)

/-- Optional exponent part of a JSON number. -/
def parseExpPart : List Char → Option (List Char × List Char)
  | [] => some ([], [])
  | c :: r =>
    if c = 'e' ∨ c = 'E' then
      match r with
      | [] => none
      | s :: r2 =>
        if s = '+' ∨ s = '-' then
          match parseDigits r2 with
          | (ds, r3) => if ds.isEmpty then none else some (c :: s :: ds, r3)
        else
          match parseDigits r with
          | (ds, r3) => if ds.isEmpty then none else some (c :: ds, r3)
    else some ([], c :: r)

/-- Lexical token of a JSON number at the head of the input. -/
def parseNumTok (cs : List Char) : Option (List Char × List Char) :=
  let sr : List Char × List Char :=
    match cs with
    | '-' :: r => (['-'], r)
    | _ => ([], cs)
  match parseIntPart sr.2 with
  | none => none
  | some (ip, r1) =>
    match parseFracPart r1 with
    | none => none
    | some (fp, r2) =>
      match parseExpPart r2 with
      | none => none
      | some (ep, r3) => some (sr.1 ++ ip ++ fp ++ ep, r3)

mutual

/-- Parse one JSON value (leading whitespace allowed); fuel bounds the
recursion depth and is always supplied larger than the input length. -/
def parseVal : Nat → List Char → Option (Json × List Char)
  | 0, _ => none
  | f + 1, cs0 =>
    match skipWs cs0 with
    | [] => none
    | c :: rest =>
      if c = '\x7b' then
        match skipWs rest with
        | '\x7d' :: r => some (Json.obj [], r)
        | cs1 => parseFields f cs1 []
      else if c = '[' then
        match skipWs rest with
        | ']' :: r => some (Json.arr [], r)
        | cs1 => parseItems f cs1 []
      else if c = '"' then
        match parseStrTok [] rest with
        | some (s, r) => some (Json.str s, r)
        | none => none
      else if c = 't' then
        match rest with
        | 'r' :: 'u' :: 'e' :: r => some (Json.bool true, r)
        | _ => none
      else if c = 'f' then
        match rest with
        | 'a' :: 'l' :: 's' :: 'e' :: r => some (Json.bool false, r)
        | _ => none
      else if c = 'n' then
        match rest with
        | 'u' :: 'l' :: 'l' :: r => some (Json.null, r)
        | _ => none
      else
        match parseNumTok (c :: rest) with
        | some (tok, r) => some (Json.num (String.mk tok), r)
        | none => none

/-- Parse the items of a nonempty JSON array (after `[`). -/
def parseItems : Nat → List Char → List Json → Option (Json × List Char)
  | 0, _, _ => none
  | f + 1, cs, acc =>
    match parseVal f cs with
    | none => none
    | some (v, r) =>
      match skipWs r with
      | ',' :: r2 => parseItems f r2 (v :: acc)
      | ']' :: r2 => some (Json.arr (v :: acc).reverse, r2)
      | _ => none

/-- Parse the fields of a nonempty JSON object (after the open brace). -/
def parseFields : Nat → List Char → List (String × Json) → Option (Json × List Char)
  | 0, _, _ => none
  | f + 1, cs, acc =>
    match skipWs cs with
    | '"' :: r =>
      match parseStrTok [] r with
      | none => none
      | some (k, r1) =>
        match skipWs r1 with
        | ':' :: r2 =>
          match parseVal f r2 with
          | none => none
          | some (v, r3) =>
            match skipWs r3 with
            | ',' :: r4 => parseFields f r4 ((k, v) :: acc)
            | '\x7d' :: r4 => some (Json.obj ((k, v) :: acc).reverse, r4)
            | _ => none
        | _ => none
    | _ => none

end

/-- Model of JavaScript `JSON.parse`: one complete JSON value with
optional surrounding whitespace, `none` in place of a thrown error. -/
def jsonParse (s : String) : Option Json :=
  match parseVal (s.data.length + 1) s.data with
  | some (v, r) =>
    match skipWs r with
    | [] => some v
    | _ => none
  | none => none

/-- Model of JavaScript `resultData.split('\n')` on character lists. -/
def splitNlChars : List Char → List (List Char)
  | [] => [[]]
  | c :: rest =>
    if c = '\n' then [] :: splitNlChars rest
    else
      match splitNlChars rest with
      | [] => [[c]]
      | l :: ls => (c :: l) :: ls

/-- Model of JavaScript `resultData.split('\n')`. -/
def splitNl (s : String) : List String := (splitNlChars s.data).map String.mk

example : splitNl "a\nb\n" = ["a", "b", ""] := by rfl
example : jsonParse "\x7b\"a\":1\x7d" = some (Json.obj [("a", Json.num "1")]) := by rfl
example : jsonParse "not json" = none := by rfl
example : jsonParse " [1, true, null, \"x\"] " =
    some (Json.arr [Json.num "1", Json.bool true, Json.null, Json.str "x"]) := by rfl
example : jsonParse "\x7b\"a\": [1.5e2, -0.25], \"b\": \x7b\x7d\x7d" =
    some (Json.obj [("a", Json.arr [Json.num "1.5e2", Json.num "-0.25"]),
      ("b", Json.obj [])]) := by rfl
example : jsonParse "\x7b" = none := by rfl
example : jsonParse "01" = none := by rfl
example : jsonParse "\"a\\u0041b\"" = some (Json.str "aAb") := by rfl

/-!
The result-extraction algorithm of the `close` handler
(`src/frontend/server.js` lines 210–240).
-/

/-- One step of the backward scan (`server.js` lines 219–231): trim the
line; if it starts with an open brace or an open bracket, attempt
`JSON.parse` on it; otherwise (or on parse failure) yield nothing. -/
def tryLine (l : String) : Option Json :=
  let line := jsTrim l
  if strStarts line '\x7b' || strStarts line '[' then jsonParse line else none

/-- The `for (let i = lines.length - 1; i >= 0; i--)` loop, expressed as
a forward walk over the reversed line list: first line whose `tryLine`
succeeds wins, and the loop breaks there. -/
def scanLoop : List String → Option Json
  | [] => none
  | l :: rest =>
    match tryLine l with
    | some v => some v
    | none => scanLoop rest

/-- The backward line scan over the accumulated stdout buffer. -/
def lineScan (resultData : String) : Option Json :=
  scanLoop (splitNl resultData).reverse

/-- Result extraction (`server.js` lines 213–240): the backward line
scan, then — only if no line was found — `JSON.parse` of the whole
trimmed buffer. -/
def extractJson (resultData : String) : Option Json :=
  match lineScan resultData with
  | some v => some v
  | none => jsonParse (jsTrim resultData)

/-- Tagged job outcome delivered to the caller, mirroring the response
objects sent by the handler: `success` carries the parsed payload
verbatim; each failure carries the diagnostic excerpts the handler
embeds in its error message. -/
inductive JobResult where
  | success (payload : Json) : JobResult
  | parseError (stdoutExcerpt stderrExcerpt : String) : JobResult
  | workerExitError (code : Int) (stderrExcerpt : String) : JobResult
  | spawnError (msg : String) : JobResult
  | invalidRequest : JobResult
  | scriptNotFound (path : String) : JobResult
  | environmentUnavailable : JobResult

/-- The `close` event handler (`server.js` lines 205–260): exit code 0
runs result extraction over `resultData`, a failed extraction reports
the first 500 characters of stdout (and of stderr); a nonzero exit code
reports the first 2000 characters of stderr, ignoring stdout. -/
def closeHandler (code : Int) (resultData errorData : String) : JobResult :=
  if code = 0 then
    match extractJson resultData with
    | some v => JobResult.success v
    | none => JobResult.parseError (strTake 500 resultData) (strTake 500 errorData)
  else
    JobResult.workerExitError code (strTake 2000 errorData)

/-!
Executable resolution and the request pipeline
(`server.js` lines 87–177).
-/

/-- Filesystem and PATH facts the handler consults: `fsExists p` models
`fs.existsSync(p)` and `whichOk p` models `execSync('which p')`
succeeding. -/
structure Env where
  fsExists : String → Bool
  whichOk : String → Bool

/-- `scriptPath` (`server.js` line 112): the worker script inside the
backend directory. -/
def scriptPath (backendPath : String) : String := backendPath ++ "/run_demo_cli.py"

/-- `pythonPaths` (`server.js` lines 123–128): candidate interpreters,
bundled virtual-environment paths first, then system commands. -/
def pythonPaths (backendPath : String) : List String :=
  [backendPath ++ "/venv/bin/python3", backendPath ++ "/venv/bin/python",
   "python3", "python"]

/-- Occurrence of a pattern at the head of a character list. -/
def matchesAt : List Char → List Char → Bool
  | _, [] => true
  | [], _ :: _ => false
  | c :: cs, p :: ps => (c = p) && matchesAt cs ps

/-- Occurrence of a pattern anywhere in a character list. -/
def occursIn : List Char → List Char → Bool
  | [], pat => matchesAt [] pat
  | c :: rest, pat => matchesAt (c :: rest) pat || occursIn rest pat

/-- Model of JavaScript `s.includes(pat)`. -/
def strContains (s pat : String) : Bool := occursIn s.data pat.data

/-- The per-candidate test of the resolution loop (`server.js` lines
131–149): absolute or venv-looking paths are checked with
`fs.existsSync`, bare commands with a `which` lookup. -/
def candidateOk (env : Env) (p : String) : Bool :=
  if strStarts p '/' || strContains p "venv" then env.fsExists p else env.whichOk p

/-- The resolution loop itself: first candidate that passes its check
wins; `none` models `pythonPath` remaining `null`. -/
def resolvePython (env : Env) : List String → Option String
  | [] => none
  | p :: rest => if candidateOk env p then some p else resolvePython env rest

/-- How the one spawned process ends: the `error` event (spawn failure)
or the `close` event with an exit code and the fully drained output
buffers. -/
inductive ProcOutcome where
  | spawnErr (msg : String) : ProcOutcome
  | exited (code : Int) (resultData errorData : String) : ProcOutcome

/-- The `/api/run-demo` pipeline (`server.js` lines 87–260) as a
function of the goal, the filesystem facts, and the process outcome.
The second component records whether a worker process was spawned.
Order is the source's: goal presence check, script existence check,
interpreter resolution, then spawn. -/
def runJob (backendPath : String) (goal : Option String) (env : Env)
    (outcome : ProcOutcome) : JobResult × Bool :=
  match goal with
  | none => (JobResult.invalidRequest, false)
  | some g =>
    if g = "" then (JobResult.invalidRequest, false)
    else if env.fsExists (scriptPath backendPath) = false then
      (JobResult.scriptNotFound (scriptPath backendPath), false)
    else
      match resolvePython env (pythonPaths backendPath) with
      | none => (JobResult.environmentUnavailable, false)
      | some _ =>
        match outcome with
        | ProcOutcome.spawnErr msg => (JobResult.spawnError msg, true)
        | ProcOutcome.exited code out err => (closeHandler code out err, true)

/-!
The single-delivery guard (`server.js` lines 96–103) and the handler's
socket timeouts (`server.js` lines 83–85).
-/

/-- `sendResponse` (`server.js` lines 98–103): state is the
`responseSent` flag together with the list of responses actually passed
to `res.json`; a send after the first is a no-op. -/
def sendResponse : Bool × List JobResult → JobResult → Bool × List JobResult
  | (responseSent, sent), data =>
    if responseSent then (responseSent, sent) else (true, sent ++ [data])

/-- Run every internal completion signal, in order, through
`sendResponse`, starting from the fresh `responseSent = false` state. -/
def deliverAll (signals : List JobResult) : Bool × List JobResult :=
  signals.foldl sendResponse (false, [])

/-- `req.setTimeout` and `res.setTimeout` (`server.js` lines 84–85):
the handler hardcodes a 30-minute timeout on both sockets.  A `none`
component would mean the handler leaves that socket's timeout alone. -/
def handlerTimeoutsMs : Option Nat × Option Nat :=
  (some (30 * 60 * 1000), some (30 * 60 * 1000))

example : extractJson "progress line\n\x7b\"a\":1\x7d\nnot json\n" =
    some (Json.obj [("a", Json.num "1")]) := by rfl
example : closeHandler 0 "just some text" "" =
    JobResult.parseError "just some text" "" := by rfl
example : extractJson "\x7b\n \"a\": 1\n\x7d" =
    some (Json.obj [("a", Json.num "1")]) := by rfl
example : lineScan "\x7b\n \"a\": 1\n\x7d" = none := by rfl

/-- A stderr stream longer than the 2000-character excerpt bound. -/
def bigStderr : String := String.mk (List.replicate 3000 'x')

/-- Filesystem facts where every probe succeeds. -/
def allOkEnv : Env := ⟨fun _ => true, fun _ => true⟩

/-- Filesystem facts where no probe succeeds. -/
def noFilesEnv : Env := ⟨fun _ => false, fun _ => false⟩

/-- Filesystem facts where only the worker script exists and no
interpreter can be found. -/
def noPythonEnv : Env := ⟨fun p => p == scriptPath "/app/backend", fun _ => false⟩

/-!
Helper lemmas.
-/

/-- Characterisation of the scan loop: it returns `some v` exactly when
the scanned list decomposes into a failing block, the winning line, and
an arbitrary unexamined tail. -/
theorem scanLoop_eq_some_iff (L : List String) (v : Json) :
    scanLoop L = some v ↔
      ∃ L₁ l L₂, L = L₁ ++ l :: L₂ ∧ (∀ x ∈ L₁, tryLine x = none) ∧
        tryLine l = some v := by
  induction L with
  | nil =>
    simp only [scanLoop]
    constructor
    · intro h; exact absurd h (by simp)
    · rintro ⟨L₁, l, L₂, hL, -, -⟩
      exact absurd hL.symm (List.append_ne_nil_of_right_ne_nil _ (by simp))
  | cons a L ih =>
    simp only [scanLoop]
    cases h : tryLine a with
    | some w =>
      simp only [Option.some.injEq]
      constructor
      · rintro rfl
        exact ⟨[], a, L, by simp, by simp, h⟩
      · rintro ⟨L₁, l, L₂, hL, hfail, hl⟩
        cases L₁ with
        | nil =>
          simp only [List.nil_append, List.cons.injEq] at hL
          rw [hL.1] at h; rw [h] at hl
          exact (Option.some.injEq _ _).mp hl
        | cons b L₁' =>
          simp only [List.cons_append, List.cons.injEq] at hL
          have : tryLine a = none := hL.1 ▸ hfail b (by simp)
          rw [this] at h; cases h
    | none =>
      rw [ih]
      constructor
      · rintro ⟨L₁, l, L₂, hL, hfail, hl⟩
        refine ⟨a :: L₁, l, L₂, by rw [hL]; rfl, ?_, hl⟩
        intro x hx
        rcases List.mem_cons.mp hx with rfl | hx'
        · exact h
        · exact hfail x hx'
      · rintro ⟨L₁, l, L₂, hL, hfail, hl⟩
        cases L₁ with
        | nil =>
          simp only [List.nil_append, List.cons.injEq] at hL
          rw [hL.1] at h; rw [h] at hl; cases hl
        | cons b L₁' =>
          simp only [List.cons_append, List.cons.injEq] at hL
          exact ⟨L₁', l, L₂, hL.2, fun x hx => hfail x (by simp [hx]), hl⟩

/-- The backward scan in terms of the original line order: it returns
`some v` exactly when some line parses to `v` and every later line
fails to parse. -/
theorem scanLoop_reverse_iff (lines : List String) (v : Json) :
    scanLoop lines.reverse = some v ↔
      ∃ A l B, lines = A ++ l :: B ∧ tryLine l = some v ∧
        ∀ x ∈ B, tryLine x = none := by
  rw [scanLoop_eq_some_iff]
  constructor
  · rintro ⟨L₁, l, L₂, hL, hfail, hl⟩
    refine ⟨L₂.reverse, l, L₁.reverse, ?_, hl, ?_⟩
    · have : lines.reverse.reverse = (L₁ ++ l :: L₂).reverse := by rw [hL]
      simpa [List.reverse_append] using this
    · intro x hx
      exact hfail x (List.mem_reverse.mp hx)
  · rintro ⟨A, l, B, hL, hl, hfail⟩
    refine ⟨B.reverse, l, A.reverse, ?_, ?_, hl⟩
    · rw [hL]; simp [List.reverse_append]
    · intro x hx
      exact hfail x (List.mem_reverse.mp hx)

/-- A pattern occurring in `r` occurs in `l ++ r`. -/
theorem occursIn_append (l r p : List Char) (h : occursIn r p = true) :
    occursIn (l ++ r) p = true := by
  induction l with
  | nil => simpa using h
  | cons c cs ih => simp [occursIn, ih]

/-- A pattern contained in the string `b` is contained in `a ++ b`. -/
theorem strContains_append (a b pat : String) (h : strContains b pat = true) :
    strContains (a ++ b) pat = true := by
  have hd : (a ++ b).data = a.data ++ b.data := by
    cases a; cases b; rfl
  unfold strContains at h ⊢
  rw [hd]
  exact occursIn_append _ _ _ h

/-- Once the `responseSent` flag is set, further signals change
nothing. -/
theorem sendResponse_absorbed (rest : List JobResult) (out : List JobResult) :
    List.foldl sendResponse (true, out) rest = (true, out) := by
  induction rest with
  | nil => rfl
  | cons s rest ih => simpa [sendResponse] using ih

/-- The close handler never reports a missing request input. -/
theorem closeHandler_ne_invalidRequest (code : Int) (out err : String) :
    closeHandler code out err ≠ JobResult.invalidRequest := by
  unfold closeHandler
  by_cases h : code = 0
  · rw [if_pos h]
    cases hE : extractJson out <;> simp
  · rw [if_neg h]; simp

/-!
The claims.
-/

/-- Claim C1: for every stdout text handled on exit code 0, result
extraction splits the text into lines on newline boundaries, scans them
in reverse order, trims each line, considers only trimmed lines starting
with an open brace or an open bracket, and returns the parse of the
first such line (scanning backward) that parses, stopping there even if
earlier lines would also parse; in particular, for the stdout consisting
of a progress line, the line containing the object with field a mapped
to 1, and a non-JSON line, extraction selects that object and the job
result is its `Success`. -/
theorem c1_backward_scan_selects_last_parseable :
    (∀ stdout v, lineScan stdout = some v ↔
      ∃ A l B, splitNl stdout = A ++ l :: B ∧ tryLine l = some v ∧
        ∀ x ∈ B, tryLine x = none)
    ∧ closeHandler 0 "progress line\n\x7b\"a\":1\x7d\nnot json\n" "" =
        JobResult.success (Json.obj [("a", Json.num "1")]) := by
  constructor
  · intro stdout v
    unfold lineScan
    exact scanLoop_reverse_iff _ v
  · rfl

/-- Witness for C1: a concrete application of the scan
characterisation. -/
theorem c1_backward_scan_selects_last_parseable_witness :
    lineScan "\x7b\x7d" = some (Json.obj []) :=
  (c1_backward_scan_selects_last_parseable.1 "\x7b\x7d" (Json.obj [])).mpr
    ⟨[], "\x7b\x7d", [], by rfl, by rfl, by simp⟩

/-- Claim C2: when no individual line is selected by the backward scan,
extraction falls back to parsing the entire trimmed stdout buffer, and
extraction fails exactly when that whole-buffer parse also fails. -/
theorem c2_whole_buffer_fallback (stdout : String) :
    (lineScan stdout = none → extractJson stdout = jsonParse (jsTrim stdout))
    ∧ (extractJson stdout = none ↔
        lineScan stdout = none ∧ jsonParse (jsTrim stdout) = none) := by
  unfold extractJson
  cases h : lineScan stdout <;> simp [h]

/-- Witness for C2: a multi-line object that no single line parses but
the whole trimmed buffer does. -/
theorem c2_whole_buffer_fallback_witness :
    lineScan "\x7b\n \"a\": 1\n\x7d" = none ∧
    extractJson "\x7b\n \"a\": 1\n\x7d" = jsonParse (jsTrim "\x7b\n \"a\": 1\n\x7d") ∧
    extractJson "\x7b\n \"a\": 1\n\x7d" = some (Json.obj [("a", Json.num "1")]) :=
  ⟨by rfl, (c2_whole_buffer_fallback "\x7b\n \"a\": 1\n\x7d").1 (by rfl), by rfl⟩

/-- Claim C3: the caller receives exactly one `JobResult`: whatever
sequence of internal completion signals fires after the first, the
`responseSent` guard suppresses every delivery after the first, so the
list of responses actually sent is exactly the first signal. -/
theorem c3_exactly_once_delivery (first : JobResult) (rest : List JobResult) :
    (deliverAll (first :: rest)).2 = [first] := by
  unfold deliverAll
  rw [List.foldl_cons, show sendResponse (false, []) first = (true, [first]) from rfl,
    sendResponse_absorbed]

/-- Witness for C3: an error signal followed by a close signal delivers
only the error. -/
theorem c3_exactly_once_delivery_witness :
    (deliverAll [JobResult.spawnError "boom", closeHandler 0 "" ""]).2 =
      [JobResult.spawnError "boom"] :=
  c3_exactly_once_delivery (JobResult.spawnError "boom") [closeHandler 0 "" ""]

/-- Claim C4: a nonzero exit code yields `workerExitError` with that
code and a stderr excerpt of at most 2000 characters, and the result
does not depend on stdout. -/
theorem c4_nonzero_exit_stderr_excerpt (code : Int) (stdout stdout2 stderr : String)
    (h : code ≠ 0) :
    closeHandler code stdout stderr = JobResult.workerExitError code (strTake 2000 stderr)
    ∧ (strTake 2000 stderr).length ≤ 2000
    ∧ closeHandler code stdout stderr = closeHandler code stdout2 stderr := by
  refine ⟨?_, ?_, ?_⟩
  · unfold closeHandler; rw [if_neg h]
  · show (stderr.data.take 2000).length ≤ 2000
    rw [List.length_take]
    exact Nat.min_le_left _ _
  · unfold closeHandler; rw [if_neg h, if_neg h]

/-- Witness for C4: exit code 2 with a 3000-character stderr is
truncated to exactly 2000 characters. -/
theorem c4_nonzero_exit_stderr_excerpt_witness :
    (2 : Int) ≠ 0 ∧
    (closeHandler 2 "ignored stdout" bigStderr =
        JobResult.workerExitError 2 (strTake 2000 bigStderr)
      ∧ (strTake 2000 bigStderr).length ≤ 2000
      ∧ closeHandler 2 "ignored stdout" bigStderr =
          closeHandler 2 "other stdout" bigStderr)
    ∧ bigStderr.length = 3000 ∧ (strTake 2000 bigStderr).length = 2000 :=
  ⟨by decide,
   c4_nonzero_exit_stderr_excerpt 2 "ignored stdout" "other stdout" bigStderr (by decide),
   by show (List.replicate 3000 'x').length = 3000
      rw [List.length_replicate],
   by show ((List.replicate 3000 'x').take 2000).length = 2000
      rw [List.length_take, List.length_replicate]
      norm_num⟩

/-- Claim C5: exit code 0 with failed extraction yields `parseError`
whose stdout diagnostic is the first 500 characters of stdout. -/
theorem c5_parse_error_stdout_excerpt (stdout stderr : String)
    (h : extractJson stdout = none) :
    closeHandler 0 stdout stderr =
      JobResult.parseError (strTake 500 stdout) (strTake 500 stderr) := by
  simp [closeHandler, h]

/-- Witness for C5: exit code 0 with stdout "just some text". -/
theorem c5_parse_error_stdout_excerpt_witness :
    extractJson "just some text" = none ∧
    strTake 500 "just some text" = "just some text" ∧
    closeHandler 0 "just some text" "" =
      JobResult.parseError (strTake 500 "just some text") (strTake 500 "") :=
  ⟨by rfl, by rfl, c5_parse_error_stdout_excerpt "just some text" "" (by rfl)⟩

/-- Claim C6: an absent or empty goal fails immediately with
`invalidRequest` and spawns no process; a non-empty goal never produces
that failure. -/
theorem c6_empty_goal_invalid_request (backendPath : String) (env : Env)
    (outcome : ProcOutcome) :
    runJob backendPath none env outcome = (JobResult.invalidRequest, false)
    ∧ runJob backendPath (some "") env outcome = (JobResult.invalidRequest, false)
    ∧ ∀ g, g ≠ "" →
        (runJob backendPath (some g) env outcome).1 ≠ JobResult.invalidRequest := by
  refine ⟨rfl, by simp [runJob], ?_⟩
  intro g hg
  by_cases hs : env.fsExists (scriptPath backendPath) = false
  · simp [runJob, hg, hs]
  · cases hr : resolvePython env (pythonPaths backendPath) with
    | none => simp [runJob, hg, hs, hr]
    | some p =>
      cases outcome with
      | spawnErr m => simp [runJob, hg, hs, hr]
      | exited c o e =>
        simp only [runJob, hg, hs, hr, if_neg, if_false]
        simpa [hg, hs, hr] using closeHandler_ne_invalidRequest c o e

/-- Witness for C6: a concrete non-empty goal does not produce
`invalidRequest`. -/
theorem c6_empty_goal_invalid_request_witness :
    ("goal" : String) ≠ "" ∧
    (runJob "/app/backend" (some "goal") noPythonEnv
        (ProcOutcome.exited 0 "" "")).1 ≠ JobResult.invalidRequest :=
  ⟨by decide,
   (c6_empty_goal_invalid_request "/app/backend" noPythonEnv
     (ProcOutcome.exited 0 "" "")).2.2 "goal" (by decide)⟩

/-- Claim C7: interpreter resolution tries, in this fixed order, the two
bundled virtual-environment paths (checked on disk) and then the system
commands python3 and python (checked with a which lookup), the first
passing candidate winning; if none resolves, the job fails with
`environmentUnavailable` and no process is spawned. -/
theorem c7_python_resolution_order (backendPath : String) (env : Env) :
    pythonPaths backendPath =
      [backendPath ++ "/venv/bin/python3", backendPath ++ "/venv/bin/python",
       "python3", "python"]
    ∧ resolvePython env (pythonPaths backendPath) =
        (if env.fsExists (backendPath ++ "/venv/bin/python3") then
          some (backendPath ++ "/venv/bin/python3")
         else if env.fsExists (backendPath ++ "/venv/bin/python") then
          some (backendPath ++ "/venv/bin/python")
         else if env.whichOk "python3" then some "python3"
         else if env.whichOk "python" then some "python"
         else none)
    ∧ (resolvePython env (pythonPaths backendPath) = none →
        ∀ g outcome, g ≠ "" → env.fsExists (scriptPath backendPath) = true →
          runJob backendPath (some g) env outcome =
            (JobResult.environmentUnavailable, false)) := by
  have h1 : candidateOk env (backendPath ++ "/venv/bin/python3") =
      env.fsExists (backendPath ++ "/venv/bin/python3") := by
    have hc := strContains_append backendPath "/venv/bin/python3" "venv" (by rfl)
    simp [candidateOk, hc]
  have h2 : candidateOk env (backendPath ++ "/venv/bin/python") =
      env.fsExists (backendPath ++ "/venv/bin/python") := by
    have hc := strContains_append backendPath "/venv/bin/python" "venv" (by rfl)
    simp [candidateOk, hc]
  have h3 : candidateOk env "python3" = env.whichOk "python3" := rfl
  have h4 : candidateOk env "python" = env.whichOk "python" := rfl
  refine ⟨rfl, ?_, ?_⟩
  · simp only [pythonPaths, resolvePython, h1, h2, h3, h4]
  · intro hnone g outcome hg hscript
    simp [runJob, hg, hscript, hnone]

/-- Witness for C7: with the script present but no interpreter
anywhere, the job fails with `environmentUnavailable` and spawns
nothing. -/
theorem c7_python_resolution_order_witness :
    resolvePython noPythonEnv (pythonPaths "/app/backend") = none ∧
    noPythonEnv.fsExists (scriptPath "/app/backend") = true ∧
    runJob "/app/backend" (some "goal") noPythonEnv (ProcOutcome.exited 0 "" "") =
      (JobResult.environmentUnavailable, false) :=
  ⟨by rfl, by rfl,
   (c7_python_resolution_order "/app/backend" noPythonEnv).2.2 (by rfl) "goal"
     (ProcOutcome.exited 0 "" "") (by decide) (by rfl)⟩

/-- Claim C8: if the worker script is absent on disk the job fails with
`scriptNotFound` before any spawn attempt. -/
theorem c8_script_missing_no_spawn (backendPath : String) (env : Env) (g : String)
    (outcome : ProcOutcome) (hg : g ≠ "")
    (hs : env.fsExists (scriptPath backendPath) = false) :
    runJob backendPath (some g) env outcome =
      (JobResult.scriptNotFound (scriptPath backendPath), false) := by
  simp [runJob, hg, hs]

/-- Witness for C8: a concrete run with no files on disk. -/
theorem c8_script_missing_no_spawn_witness :
    ("goal" : String) ≠ "" ∧
    noFilesEnv.fsExists (scriptPath "/app/backend") = false ∧
    runJob "/app/backend" (some "goal") noFilesEnv (ProcOutcome.exited 0 "" "") =
      (JobResult.scriptNotFound (scriptPath "/app/backend"), false) :=
  ⟨by decide, by rfl,
   c8_script_missing_no_spawn "/app/backend" noFilesEnv "goal"
     (ProcOutcome.exited 0 "" "") (by decide) (by rfl)⟩

/-- Counterexample for C9: the claim that the handler hardcodes no
timeout of its own is false — the handler sets a 30-minute
(1,800,000 ms) timeout on both the request and the response socket
rather than leaving both unset. -/
theorem c9_no_timeout_counterexample :
    handlerTimeoutsMs ≠ ((none : Option Nat), (none : Option Nat)) ∧
    handlerTimeoutsMs = (some 1800000, some 1800000) := by
  constructor
  · intro h
    cases congrArg Prod.fst h
  · rfl

/-- Claim C9 as amended: the handler hardcodes a 30-minute timeout on
the request and response sockets; the job-result computation itself
applies no timeout — the delivered result is a function of the worker's
exit status and captured output alone. -/
theorem c9_amended_hardcoded_socket_timeout :
    handlerTimeoutsMs = (some (30 * 60 * 1000), some (30 * 60 * 1000))
    ∧ (∀ (code : Int) (out err : String),
        runJob "/app/backend" (some "goal") allOkEnv (ProcOutcome.exited code out err) =
          (closeHandler code out err, true))
    ∧ (∀ msg, runJob "/app/backend" (some "goal") allOkEnv (ProcOutcome.spawnErr msg) =
        (JobResult.spawnError msg, true)) := by
  refine ⟨rfl, ?_, ?_⟩
  · intro code out err; rfl
  · intro msg; rfl

/-- Claim C10: when the worker exits 0 and extraction succeeds, the
parsed value is delivered verbatim as `success`, without wrapping,
re-shaping, or validation. -/
theorem c10_verbatim_delivery (stdout stderr : String) (v : Json)
    (h : extractJson stdout = some v) :
    closeHandler 0 stdout stderr = JobResult.success v := by
  simp [closeHandler, h]

/-- Witness for C10: a worker that exits 0 while printing an object
whose success field is false still has that exact object delivered. -/
theorem c10_verbatim_delivery_witness :
    extractJson "\x7b\"success\": false, \"note\": \"x\"\x7d" =
      some (Json.obj [("success", Json.bool false), ("note", Json.str "x")]) ∧
    closeHandler 0 "\x7b\"success\": false, \"note\": \"x\"\x7d" "" =
      JobResult.success
        (Json.obj [("success", Json.bool false), ("note", Json.str "x")]) :=
  ⟨by rfl,
   c10_verbatim_delivery "\x7b\"success\": false, \"note\": \"x\"\x7d" ""
     (Json.obj [("success", Json.bool false), ("note", Json.str "x")]) (by rfl)⟩
